import Mathlib

/-!
# Reaction Time Tester (STM32F429ZI) — shallow embedding

A shallow embedding of `src/Reaction_Time_Tester.cpp`: the FSM globals, the
four handlers (`tick`, `blinkRed`, `user`, `external`), the unused
`reaction1` helper, the shared mbed `Timeout` scheduling slot and the mbed
`Timer` stopwatch, together with a step relation over button-press,
callback-firing and time-advance events.

Modelling conventions:
* `state : Int` embeds the C++ `int state` global; `pB : Int` the `int pB`
  personal best (initialised to `INT_MAX`); `elapsed : Nat` the
  `uint64_t elapsed` global (all writes are reduced `% 2^64`).
* The two `char` buffers hold formatted strings; we model each by the
  numeric payload last printed into it (`none` = zeroed / empty buffer,
  `some v` = the buffer holds the rendering of `v`).
* The mbed `Timer t` is `tRunning : Bool` plus `tVal : Nat`, the
  millisecond reading that `t.elapsed_time()` (cast to ms) would return;
  `t.reset()` zeroes `tVal`, `t.start()`/`t.stop()` toggle `tRunning`, and
  a time-advance event grows `tVal` while running.
* The C++ guard `elapsed >= 0` on the valid-press branch is identically
  true (`elapsed` is unsigned) and so is dropped from the embedding.
* LCD rendering (`LCD.Clear`, `DisplayStringAt`, fonts) is presentation
  and out of the model, as are GPIO specifics; the two LEDs are the two
  `Bool` fields `green` and `red`.
-/

namespace RTT

/-- The two functions the program ever attaches to the shared `Timeout`:
`&tick` (idle green blink) and `&blinkRed` (completion red blink). -/
inductive Cb
| tickCb
| blinkRedCb
deriving DecidableEq

/-- Modelled from the spec: the mbed `Timeout` object (its implementation is
library code, not in this repository). Per the spec's §2 "single-slot
delayed/periodic callback mechanism": `attach` schedules a callback to fire
once, replacing any previously pending callback, of either class. -/
def Timeout.attach (_s : Option Cb) (c : Cb) : Option Cb :=
  some c

/-- Modelled from the spec: mbed `Timeout.detach` cancels whatever is
pending; with nothing pending it leaves the empty slot empty. -/
def Timeout.detach (_s : Option Cb) : Option Cb :=
  none

/-- Modelled from the spec: expiry of the slot. Returns the slot after the
expiry together with the list of callbacks that fire (the pending one fires
exactly once; an empty slot fires nothing). -/
def Timeout.expire : Option Cb → Option Cb × List Cb
  | none => (none, [])
  | some c => (none, [c])

/-- The value of `INT_MAX` on the 32-bit target: sentinel initial value of `pB`. -/
def INT_MAX : Int := 2147483647

/-- The constant `2^64`, the modulus of the `uint64_t elapsed` global. -/
def UINT64_MOD : Nat := 18446744073709551616

/-- The C++ usual arithmetic conversion of the `int` `pB` to `uint64_t` for the
comparison `elapsed < pB`. -/
def toUInt64 (i : Int) : Nat :=
  (i.emod 18446744073709551616).toNat

/-- The C++ conversion of a `uint64_t` value to the 32-bit `int` (wraps mod
`2^32`, as the implementation-defined conversion does on this target);
used by the assignment `pB = elapsed`. -/
def toInt32 (n : Nat) : Int :=
  if n % 4294967296 < 2147483648 then ((n % 4294967296 : Nat) : Int)
  else ((n % 4294967296 : Nat) : Int) - 4294967296

/-- The program state: the FSM globals, both LEDs, both text buffers, the
shared `Timeout` slot and the `Timer`. -/
structure Mach where
  state : Int
  reaction : Bool
  pB : Int
  elapsed : Nat
  green : Bool
  red : Bool
  bufferElapsed : Option Nat
  bufferpB : Option Int
  pending : Option Cb
  tRunning : Bool
  tVal : Nat
deriving DecidableEq

/-- Source function `blinkRed()`: toggle the red LED and re-arm itself on the shared
`Timeout` (300 ms). -/
def blinkRed (m : Mach) : Mach :=
  { m with red := !m.red, pending := Timeout.attach m.pending Cb.blinkRedCb }

/-- Source function `tick()`: state 0 toggles the green LED and re-arms itself (100 ms);
state 1 clears the `reaction` flag and resets the `Timer` (reading back to
0, running flag kept); state 2 delegates to `blinkRed`. -/
def tick (m : Mach) : Mach :=
  if m.state = 0 then
    { m with green := !m.green, pending := Timeout.attach m.pending Cb.tickCb }
  else if m.state = 1 then
    { m with reaction := false, tVal := 0 }
  else if m.state = 2 then
    blinkRed m
  else
    m

/-- Source function `reaction1()`: zero `elapsed`, green LED on, start the `Timer`, set the
`reaction` flag. Declared and defined in the source but never called from
any handler or from `main`. -/
def reaction1 (m : Mach) : Mach :=
  { m with elapsed := 0, green := true, tRunning := true, reaction := true }

/-- Source function `user()`: the onboard-button ISR. State 0: start a test (to state 1,
green off, `tick()`); state 1 with `reaction` set (and the always-true
`elapsed >= 0`): stop the timer, record `elapsed`, format the last-time
buffer, update `pB` if strictly faster (under the uint64 comparison),
format the best-time buffer, green off, to state 2, `tick()`; state 2:
restart (to state 0, red off, `tick()`); anything else: silent reset to
state 0 and `tick()`. -/
def user (m : Mach) : Mach :=
  if m.state = 0 then
    tick { m with state := 1, green := false }
  else if m.state = 1 ∧ m.reaction = true then
    let m1 : Mach := { m with tRunning := false }
    let e : Nat := m1.tVal % UINT64_MOD
    let m2 : Mach := { m1 with elapsed := e, bufferElapsed := some e }
    let m3 : Mach :=
      if e < toUInt64 m2.pB then { m2 with pB := toInt32 e } else m2
    tick { m3 with bufferpB := some m3.pB, green := false, state := 2 }
  else if m.state = 2 then
    tick { m with state := 0, red := false }
  else
    tick { m with state := 0 }

/-- Source function `external()`: the reset-button ISR. Back to state 0, `pB` to the
`INT_MAX` sentinel, `elapsed` to 0, `reaction` cleared, both buffers
zeroed, red LED off, then `tick()` (which re-arms the idle blink). -/
def external (m : Mach) : Mach :=
  tick { m with state := 0, pB := INT_MAX, elapsed := 0, reaction := false,
                bufferElapsed := none, bufferpB := none, red := false }

/-- Run an expired callback: firing the slot executes `tick` or `blinkRed`
(which may re-attach). -/
def runCb : Cb → Mach → Mach
  | Cb.tickCb, m => tick m
  | Cb.blinkRedCb, m => blinkRed m

/-- Expiry of the shared `Timeout`: the pending callback (if any) is
removed from the slot and then executed once. -/
def fireStep (m : Mach) : Mach :=
  match m.pending with
  | none => m
  | some c => runCb c { m with pending := none }

/-- Passage of `d` milliseconds of real time: the `Timer` reading grows
while the timer is running, and nothing else changes. -/
def advance (d : Nat) (m : Mach) : Mach :=
  if m.tRunning then { m with tVal := m.tVal + d } else m

/-- The state after `main`'s initialisation: globals at their initialisers
(`state = 0`, `reaction = false`, `pB = INT_MAX`, `elapsed = 0`, zeroed
buffers), both LEDs driven low, then the initial `tick()` call. -/
def init : Mach :=
  tick { state := 0, reaction := false, pB := INT_MAX, elapsed := 0,
         green := false, red := false, bufferElapsed := none,
         bufferpB := none, pending := none, tRunning := false, tVal := 0 }

/-- One asynchronous event: a primary (onboard) button press, a reset
(external) button press, expiry of the shared `Timeout`, or the passage of
time. -/
inductive Step : Mach → Mach → Prop
| pressUser (m : Mach) : Step m (user m)
| pressExt (m : Mach) : Step m (external m)
| fire (m : Mach) : Step m (fireStep m)
| adv (m : Mach) (d : Nat) : Step m (advance d m)

/-- States reachable from `init` by any sequence of events. -/
inductive Reachable : Mach → Prop
| start : Reachable init
| step {m m' : Mach} : Reachable m → Step m m' → Reachable m'

/-- A concrete machine state in the reaction-measurement configuration
(state 1, `reaction` flag set, timer running) with personal best `best`
and current stopwatch reading `reading` ms; used as an explicit input to
the `user` ISR. -/
def measuring (best : Int) (reading : Nat) : Mach :=
  { state := 1, reaction := true, pB := best, elapsed := 0,
    green := true, red := false, bufferElapsed := none, bufferpB := none,
    pending := some Cb.tickCb, tRunning := true, tVal := reading }

/-- The inductive invariant of the reference program: the FSM variable is
0 or 1 (state 2 is never reached because `reaction1` is never called), the
`reaction` flag is never set, the stopwatch is never running, and the
personal best stays in `[0, INT_MAX]`. -/
def Inv (m : Mach) : Prop :=
  (m.state = 0 ∨ m.state = 1) ∧ m.reaction = false ∧ m.tRunning = false ∧
    0 ≤ m.pB ∧ m.pB ≤ INT_MAX

lemma inv_init : Inv init := by
  unfold Inv
  decide

lemma inv_blinkRed {m : Mach} (h : Inv m) : Inv (blinkRed m) := by
  obtain ⟨hs, hr, ht, h0, h1⟩ := h
  exact ⟨hs, hr, ht, h0, h1⟩

lemma inv_tick {m : Mach} (h : Inv m) : Inv (tick m) := by
  obtain ⟨hs, hr, ht, h0, h1⟩ := h
  rcases hs with h | h <;>
    simp [Inv, tick, blinkRed, Timeout.attach, h, hr, ht, h0, h1]

lemma inv_user {m : Mach} (h : Inv m) : Inv (user m) := by
  obtain ⟨hs, hr, ht, h0, h1⟩ := h
  rcases hs with h | h
  · simp [Inv, user, tick, Timeout.attach, h, hr, ht, h0, h1]
  · have hg : ¬ (m.state = 1 ∧ m.reaction = true) := by simp [hr]
    simp [Inv, user, tick, Timeout.attach, h, hg, hr, ht, h0, h1]

lemma inv_external {m : Mach} (h : Inv m) : Inv (external m) := by
  obtain ⟨hs, hr, ht, h0, h1⟩ := h
  unfold Inv external tick Timeout.attach INT_MAX
  simp [ht]

lemma inv_fireStep {m : Mach} (h : Inv m) : Inv (fireStep m) := by
  obtain ⟨hs, hr, ht, h0, h1⟩ := h
  unfold fireStep
  cases hp : m.pending with
  | none => exact ⟨hs, hr, ht, h0, h1⟩
  | some c =>
    cases c with
    | tickCb => exact inv_tick ⟨hs, hr, ht, h0, h1⟩
    | blinkRedCb => exact inv_blinkRed ⟨hs, hr, ht, h0, h1⟩

lemma inv_advance {m : Mach} (d : Nat) (h : Inv m) : Inv (advance d m) := by
  obtain ⟨hs, hr, ht, h0, h1⟩ := h
  unfold Inv advance
  split <;> exact ⟨hs, hr, ht, h0, h1⟩

lemma inv_reachable {m : Mach} (h : Reachable m) : Inv m := by
  induction h with
  | start => exact inv_init
  | step _ hs ih =>
    cases hs with
    | pressUser => exact inv_user ih
    | pressExt => exact inv_external ih
    | fire => exact inv_fireStep ih
    | adv => exact inv_advance _ ih

lemma toUInt64_of_bounds {i : Int} (h0 : 0 ≤ i) (h1 : i ≤ INT_MAX) :
    toUInt64 i = i.toNat := by
  unfold INT_MAX at h1
  unfold toUInt64
  have h2 : i.emod 18446744073709551616 = i := Int.emod_eq_of_lt h0 (by omega)
  rw [h2]

lemma toInt32_small {n : Nat} (h : n < 2147483648) : toInt32 n = (n : Int) := by
  unfold toInt32
  split <;> omega

/-- Closed form of the `user` ISR on the valid-completion branch (state 1
with the `reaction` flag set). -/
lemma user_valid_eq (m : Mach) (hs : m.state = 1) (hr : m.reaction = true) :
    user m =
      { state := 2, reaction := m.reaction,
        pB := if m.tVal % UINT64_MOD < toUInt64 m.pB then
                toInt32 (m.tVal % UINT64_MOD)
              else m.pB,
        elapsed := m.tVal % UINT64_MOD,
        green := false, red := !m.red,
        bufferElapsed := some (m.tVal % UINT64_MOD),
        bufferpB := some (if m.tVal % UINT64_MOD < toUInt64 m.pB then
                            toInt32 (m.tVal % UINT64_MOD)
                          else m.pB),
        pending := some Cb.blinkRedCb, tRunning := false,
        tVal := m.tVal } := by
  have h0 : ¬ m.state = 0 := by rw [hs]; decide
  unfold user
  rw [if_neg h0, if_pos ⟨hs, hr⟩]
  by_cases hc : m.tVal % UINT64_MOD < toUInt64 m.pB <;>
    simp [tick, blinkRed, Timeout.attach, hc]

lemma tick_pB (m : Mach) : (tick m).pB = m.pB := by
  unfold tick blinkRed Timeout.attach
  split_ifs <;> rfl

lemma fireStep_pB (m : Mach) : (fireStep m).pB = m.pB := by
  cases hp : m.pending with
  | none => simp [fireStep, hp]
  | some c => cases c <;> simp [fireStep, hp, runCb, tick_pB, blinkRed]

lemma advance_pB (d : Nat) (m : Mach) : (advance d m).pB = m.pB := by
  unfold advance
  split <;> rfl

lemma external_pB (m : Mach) : (external m).pB = INT_MAX := by
  simp [external, tick_pB]

/-- C1 (amended): for every valid completion press — primary button pressed
with the FSM in state 1 (Armed) and the `reaction` flag set, the personal
best being in its representable range `[0, INT_MAX]` — the handler records
`lastElapsedMs` (the `elapsed` global and its display buffer) as the
stopwatch's elapsed value, transitions to state 2 (Complete), and sets
`bestElapsedMs` to `elapsed` iff `elapsed < bestElapsedMs` under the
numeric comparison in which the "none" sentinel participates as the value
`INT_MAX` (so a "none" best is replaced exactly when `elapsed < INT_MAX`,
not for every `elapsed`); otherwise `bestElapsedMs` is unchanged; the
best-time buffer always shows the resulting `bestElapsedMs`. -/
theorem c1_valid_press_updates_record (m : Mach)
    (hs : m.state = 1) (hr : m.reaction = true)
    (hp0 : 0 ≤ m.pB) (hp1 : m.pB ≤ INT_MAX) :
    (user m).state = 2 ∧
    (user m).elapsed = m.tVal % UINT64_MOD ∧
    (user m).bufferElapsed = some (m.tVal % UINT64_MOD) ∧
    (((m.tVal % UINT64_MOD : Nat) : Int) < m.pB →
      (user m).pB = ((m.tVal % UINT64_MOD : Nat) : Int)) ∧
    (¬ ((m.tVal % UINT64_MOD : Nat) : Int) < m.pB → (user m).pB = m.pB) ∧
    (user m).bufferpB = some ((user m).pB) := by
  have hu := toUInt64_of_bounds hp0 hp1
  simp only [user_valid_eq m hs hr]
  refine ⟨trivial, trivial, trivial, ?_, ?_, trivial⟩
  · intro hlt
    have hc : m.tVal % UINT64_MOD < toUInt64 m.pB := by rw [hu]; omega
    rw [if_pos hc]
    have hsmall : m.tVal % UINT64_MOD < 2147483648 := by
      rw [hu] at hc
      unfold INT_MAX at hp1
      omega
    exact toInt32_small hsmall
  · intro hge
    have hc : ¬ m.tVal % UINT64_MOD < toUInt64 m.pB := by rw [hu]; omega
    rw [if_neg hc]

/-- C1 counterexample to the claim as stated: a valid completion press with
the best at the `INT_MAX` "none" sentinel and the stopwatch reading
`2147483648` ms. The claim requires `bestElapsedMs` to be set to `elapsed`
(the best is "none"), but the code's `elapsed < pB` comparison is false, so
`pB` stays at the sentinel instead of becoming `2147483648`. -/
theorem c1_counterexample :
    (measuring INT_MAX 2147483648).state = 1 ∧
    (measuring INT_MAX 2147483648).reaction = true ∧
    (measuring INT_MAX 2147483648).pB = INT_MAX ∧
    (user (measuring INT_MAX 2147483648)).elapsed = 2147483648 ∧
    (user (measuring INT_MAX 2147483648)).pB ≠ 2147483648 := by
  decide

/-- C1 witness: the amended theorem applied at the concrete measurable
state with best 150 ms and stopwatch reading 200 ms (spec scenario 4). -/
theorem c1_witness :
    ((measuring 150 200).state = 1 ∧ (measuring 150 200).reaction = true ∧
      0 ≤ (measuring 150 200).pB ∧ (measuring 150 200).pB ≤ INT_MAX) ∧
    ((user (measuring 150 200)).state = 2 ∧
      (user (measuring 150 200)).elapsed =
        (measuring 150 200).tVal % UINT64_MOD ∧
      (user (measuring 150 200)).bufferElapsed =
        some ((measuring 150 200).tVal % UINT64_MOD) ∧
      ((((measuring 150 200).tVal % UINT64_MOD : Nat) : Int) <
          (measuring 150 200).pB →
        (user (measuring 150 200)).pB =
          (((measuring 150 200).tVal % UINT64_MOD : Nat) : Int)) ∧
      (¬ (((measuring 150 200).tVal % UINT64_MOD : Nat) : Int) <
          (measuring 150 200).pB →
        (user (measuring 150 200)).pB = (measuring 150 200).pB) ∧
      (user (measuring 150 200)).bufferpB =
        some ((user (measuring 150 200)).pB)) :=
  ⟨⟨by decide, by decide, by decide, by decide⟩,
    c1_valid_press_updates_record (measuring 150 200)
      (by decide) (by decide) (by decide) (by decide)⟩

/-- C2: in every state reachable from the initial state by any sequence of
primary-button, reset-button, callback-expiry and time-advance events, the
FSM `state` variable is one of the three values 0 (Idle), 1 (Armed),
2 (Complete). -/
theorem c2_state_in_enum (m : Mach) (h : Reachable m) :
    m.state = 0 ∨ m.state = 1 ∨ m.state = 2 := by
  rcases (inv_reachable h).1 with h' | h'
  · exact Or.inl h'
  · exact Or.inr (Or.inl h')

/-- C2 witness: the theorem applied at the initial state. -/
theorem c2_witness : init.state = 0 ∨ init.state = 1 ∨ init.state = 2 :=
  c2_state_in_enum init Reachable.start

/-- C3 (code bug): a primary press in the initial Idle state moves to
state 1 (Armed), turns the green actuator off and resets the stopwatch
reading to 0, but the stopwatch is NOT started (`reaction1`, the only
caller of `t.start()`, is never invoked) and the previously armed
blink-idle callback is NOT cancelled — it is still pending. This
contradicts the claim (and the source file's own header comment, which
documents that the timer starts). -/
theorem c3_idle_press_no_stopwatch_start :
    (user init).state = 1 ∧ (user init).green = false ∧
    (user init).tVal = 0 ∧ (user init).tRunning = false ∧
    (user init).pending = some Cb.tickCb := by
  decide

/-- C4: in every reachable state the `reaction` flag is false, the timer
has never been started, and state 2 (Complete) has not been reached —
the semantic consequences of `reaction1` never being invoked (no handler
in the source calls it, so it does not occur in the step relation). -/
theorem c4_reaction_phase_never_active (m : Mach) (h : Reachable m) :
    m.reaction = false ∧ m.tRunning = false ∧ m.state ≠ 2 := by
  obtain ⟨hs, hr, ht, _, _⟩ := inv_reachable h
  refine ⟨hr, ht, ?_⟩
  rcases hs with h' | h' <;> omega

/-- C4 witness: the theorem applied at the reachable state obtained by one
primary press from the initial state. -/
theorem c4_witness :
    (user init).reaction = false ∧ (user init).tRunning = false ∧
    (user init).state ≠ 2 :=
  c4_reaction_phase_never_active (user init)
    (Reachable.step Reachable.start (Step.pressUser init))

/-- C5: with the personal best in its representable range, no controller
operation other than the explicit reset increases `bestElapsedMs`
(`user`, `tick`, `blinkRed`, callback expiry and time advance never
increase `pB`; `external` resets it to the `INT_MAX` "none" sentinel);
and immediately after the completion update rule has run, the resulting
best is at most the recorded `lastElapsedMs`. -/
theorem c5_best_only_decreases (m : Mach) (d : Nat)
    (hp0 : 0 ≤ m.pB) (hp1 : m.pB ≤ INT_MAX) :
    (user m).pB ≤ m.pB ∧ (tick m).pB = m.pB ∧ (blinkRed m).pB = m.pB ∧
    (fireStep m).pB = m.pB ∧ (advance d m).pB = m.pB ∧
    (external m).pB = INT_MAX ∧
    (m.state = 1 → m.reaction = true →
      (user m).pB ≤ ((user m).elapsed : Int)) := by
  refine ⟨?_, tick_pB m, rfl, fireStep_pB m, advance_pB d m,
    external_pB m, ?_⟩
  · by_cases h0 : m.state = 0
    · unfold user
      rw [if_pos h0, tick_pB]
    · by_cases hg : m.state = 1 ∧ m.reaction = true
      · simp only [user_valid_eq m hg.1 hg.2]
        by_cases hc : m.tVal % UINT64_MOD < toUInt64 m.pB
        · rw [if_pos hc]
          rw [toUInt64_of_bounds hp0 hp1] at hc
          unfold INT_MAX at hp1
          rw [toInt32_small (by omega)]
          omega
        · rw [if_neg hc]
      · unfold user
        rw [if_neg h0, if_neg hg]
        by_cases h2 : m.state = 2
        · rw [if_pos h2, tick_pB]
        · rw [if_neg h2, tick_pB]
  · intro hs hr
    simp only [user_valid_eq m hs hr]
    by_cases hc : m.tVal % UINT64_MOD < toUInt64 m.pB
    · rw [if_pos hc]
      rw [toUInt64_of_bounds hp0 hp1] at hc
      unfold INT_MAX at hp1
      rw [toInt32_small (by omega)]
    · rw [if_neg hc]
      rw [toUInt64_of_bounds hp0 hp1] at hc
      omega

/-- C5 witness: the theorem applied at the concrete measurable state with
best 120 ms and stopwatch reading 95 ms, and a 7 ms time advance. -/
theorem c5_witness :
    (0 ≤ (measuring 120 95).pB ∧ (measuring 120 95).pB ≤ INT_MAX) ∧
    ((user (measuring 120 95)).pB ≤ (measuring 120 95).pB ∧
      (tick (measuring 120 95)).pB = (measuring 120 95).pB ∧
      (blinkRed (measuring 120 95)).pB = (measuring 120 95).pB ∧
      (fireStep (measuring 120 95)).pB = (measuring 120 95).pB ∧
      (advance 7 (measuring 120 95)).pB = (measuring 120 95).pB ∧
      (external (measuring 120 95)).pB = INT_MAX ∧
      ((measuring 120 95).state = 1 → (measuring 120 95).reaction = true →
        (user (measuring 120 95)).pB ≤
          ((user (measuring 120 95)).elapsed : Int))) :=
  ⟨⟨by decide, by decide⟩,
    c5_best_only_decreases (measuring 120 95) 7 (by decide) (by decide)⟩

/-- C6 counterexample to the claim as stated: from the reachable state
one blink-expiry after initialisation (green LED currently off), a
reset-button press leaves the green actuator ON, because `external` never
writes `green = 0` — the `tick()` it calls toggles green as part of
re-entering the Idle blink. The claim's "turns both actuators (green and
red) OFF" is therefore false for green. -/
theorem c6_counterexample :
    (fireStep init).green = false ∧
    (external (fireStep init)).green = true := by
  decide

/-- C6 (amended): for every current state, a reset-button press forces the
machine to state 0 (Idle), supersedes any pending scheduled callback with
the re-armed blink-idle tick (so the previously pending callback of either
class never fires), clears the Reaction Record (`pB` to the `INT_MAX`
"none" sentinel, `elapsed` to 0), clears both output buffers, and turns
the red actuator OFF; the green actuator is not forced OFF but is toggled
by the re-entered Idle blink. -/
theorem c6_reset_forces_idle_and_clears (m : Mach) :
    (external m).state = 0 ∧ (external m).pB = INT_MAX ∧
    (external m).elapsed = 0 ∧ (external m).reaction = false ∧
    (external m).bufferElapsed = none ∧ (external m).bufferpB = none ∧
    (external m).red = false ∧ (external m).pending = some Cb.tickCb ∧
    (external m).green = !m.green := by
  unfold external tick Timeout.attach
  simp

/-- C7: for every primary-button press that matches no guarded transition
row — the state is not 0, not 2, and not 1-with-`reaction`-set (this
includes a premature press during the Armed delay sub-phase, where the
`reaction` flag is still false) — the handler silently resets the FSM to
state 0 and leaves the Reaction Record (`pB`, `elapsed`) and both output
buffers unchanged; the handler is a total function, so no path is fatal
or unhandled. -/
theorem c7_unmatched_press_resets_to_idle (m : Mach)
    (h0 : ¬ m.state = 0) (h1 : ¬ (m.state = 1 ∧ m.reaction = true))
    (h2 : ¬ m.state = 2) :
    (user m).state = 0 ∧ (user m).pB = m.pB ∧
    (user m).elapsed = m.elapsed ∧
    (user m).bufferElapsed = m.bufferElapsed ∧
    (user m).bufferpB = m.bufferpB := by
  unfold user
  rw [if_neg h0, if_neg h1, if_neg h2]
  simp [tick, Timeout.attach]

/-- C7 witness: the theorem applied at the reachable state reached by one
primary press from the initial state (state 1 with `reaction` false — a
premature press during the Armed phase). -/
theorem c7_witness :
    (¬ (user init).state = 0 ∧
      ¬ ((user init).state = 1 ∧ (user init).reaction = true) ∧
      ¬ (user init).state = 2) ∧
    ((user (user init)).state = 0 ∧
      (user (user init)).pB = (user init).pB ∧
      (user (user init)).elapsed = (user init).elapsed ∧
      (user (user init)).bufferElapsed = (user init).bufferElapsed ∧
      (user (user init)).bufferpB = (user init).bufferpB) :=
  ⟨⟨by decide, by decide, by decide⟩,
    c7_unmatched_press_resets_to_idle (user init)
      (by decide) (by decide) (by decide)⟩

/-- C8: arming a callback of a given class twice in succession leaves
exactly that one callback pending (the second arm supersedes the first,
which is no longer in the slot and therefore never fires), and one expiry
of the slot then yields exactly one firing of that callback; cancelling
with nothing pending is a no-op (the empty slot stays empty). -/
theorem c8_arm_twice_one_firing (s : Option Cb) (c : Cb) :
    Timeout.attach (Timeout.attach s c) c = some c ∧
    Timeout.expire (Timeout.attach (Timeout.attach s c) c) = (none, [c]) ∧
    Timeout.detach (none : Option Cb) = none :=
  ⟨rfl, rfl, rfl⟩

/-- C9 counterexample to the claim as stated: a valid completion press with
the stopwatch reading `2147483647` ms records an elapsed measurement equal
to the `INT_MAX` "no best time" sentinel; the record and best-time buffer
afterwards are indistinguishable from "no record yet". -/
theorem c9_counterexample :
    (user (measuring INT_MAX 2147483647)).elapsed = 2147483647 ∧
    ((user (measuring INT_MAX 2147483647)).elapsed : Int) = INT_MAX ∧
    (user (measuring INT_MAX 2147483647)).pB = INT_MAX ∧
    (user (measuring INT_MAX 2147483647)).bufferpB = some INT_MAX := by
  decide

/-- C9 (amended): the `INT_MAX` sentinel is distinct from the recorded
elapsed value only for measurements strictly below `2147483647` ms: for
every valid completion press whose stopwatch reading reduces below that
bound, the recorded elapsed differs from the sentinel. -/
theorem c9_sentinel_distinct_below_intmax (m : Mach)
    (hs : m.state = 1) (hr : m.reaction = true)
    (hb : m.tVal % UINT64_MOD < 2147483647) :
    ((user m).elapsed : Int) ≠ INT_MAX := by
  simp only [user_valid_eq m hs hr]
  unfold INT_MAX
  omega

/-- C9 witness: the amended theorem applied at the concrete measurable
state with stopwatch reading 237 ms (spec scenario 2). -/
theorem c9_witness :
    ((measuring INT_MAX 237).state = 1 ∧
      (measuring INT_MAX 237).reaction = true ∧
      (measuring INT_MAX 237).tVal % UINT64_MOD < 2147483647) ∧
    ((user (measuring INT_MAX 237)).elapsed : Int) ≠ INT_MAX :=
  ⟨⟨by decide, by decide, by decide⟩,
    c9_sentinel_distinct_below_intmax (measuring INT_MAX 237)
      (by decide) (by decide) (by decide)⟩

/-- C10: all scheduling goes through the single shared `Timeout` slot, so
at most one delayed callback is ever pending, and attaching either blink
class replaces whatever was pending — of either class, not only of the
same class: after any arm exactly the new callback is in the slot, in
particular arming blink-complete cancels a pending blink-idle and vice
versa; both `blinkRed` and the Idle branch of `tick` write this one slot. -/
theorem c10_one_shared_slot (m : Mach) (c : Cb) :
    Timeout.attach m.pending c = some c ∧
    Timeout.attach (some Cb.tickCb) Cb.blinkRedCb = some Cb.blinkRedCb ∧
    Timeout.attach (some Cb.blinkRedCb) Cb.tickCb = some Cb.tickCb ∧
    (blinkRed m).pending = some Cb.blinkRedCb ∧
    (tick { m with state := 0 }).pending = some Cb.tickCb := by
  refine ⟨rfl, rfl, rfl, rfl, ?_⟩
  simp [tick, Timeout.attach]

end RTT
